import Mathlib

/-!
Verification of the NVENC H.264 encoder adapter (obs-ffmpeg-nvenc.c):
a shallow embedding of the rate-control translation (`nvenc_update`),
codec opening (`nvenc_init_codec`), frame staging (`copy_data`),
per-frame encoding with first-packet header extraction (`nvenc_encode`),
and preferred-format negotiation (`nvenc_video_info`), together with
theorems checking the specified behaviour of each.
-/

namespace Nvenc

/-- OBS raw video pixel formats (subset of `enum video_format` from
media-io/video-io.h that the encoder's negotiation logic can meet). -/
inductive VideoFormat where
  | NONE
  | I420
  | NV12
  | YVYU
  | YUY2
  | UYVY
  | RGBA
  | BGRA
  | BGRX
  | Y800
  | I444
  deriving DecidableEq, Repr

/-- FFmpeg pixel formats reachable from the supported OBS formats. -/
inductive AVPixelFormat where
  | YUV420P
  | NV12
  | YUV444P
  | NONE
  deriving DecidableEq, Repr

/-- Modelled from the spec: `obs_to_ffmpeg_video_format`
(obs-ffmpeg-formats.h, not under src/) maps the negotiated OBS pixel
format to the corresponding FFmpeg pixel format. -/
def obs_to_ffmpeg_video_format : VideoFormat → AVPixelFormat
  | VideoFormat.I420 => AVPixelFormat.YUV420P
  | VideoFormat.NV12 => AVPixelFormat.NV12
  | VideoFormat.I444 => AVPixelFormat.YUV444P
  | _ => AVPixelFormat.NONE

/-- `enum video_colorspace` (only the distinction the code tests). -/
inductive VideoColorspace where
  | CS_DEFAULT
  | CS_601
  | CS_709
  deriving DecidableEq, Repr

/-- `enum video_range_type` (only the distinction the code tests). -/
inductive VideoRange where
  | RANGE_DEFAULT
  | RANGE_PARTIAL
  | RANGE_FULL
  deriving DecidableEq, Repr

/-- FFmpeg colorspace constants used by the code. -/
inductive AVColorSpace where
  | BT709
  | BT470BG
  deriving DecidableEq, Repr

/-- FFmpeg color-range constants used by the code. -/
inductive AVColorRange where
  | JPEG
  | MPEG
  deriving DecidableEq, Repr

/-- `struct video_scale_info` restricted to the fields the encoder
reads and writes (`format`, `colorspace`, `range`). -/
structure VideoScaleInfo where
  format : VideoFormat
  colorspace : VideoColorspace
  range : VideoRange
  deriving DecidableEq, Repr

/-- The fields of `struct video_output_info` the encoder reads:
pixel format, colorspace, range and the frame rate fraction
(`fps_num`, `fps_den`, both `uint32_t`). -/
structure VideoOutputInfo where
  format : VideoFormat
  colorspace : VideoColorspace
  range : VideoRange
  fps_num : Nat
  fps_den : Nat
  deriving DecidableEq, Repr

/-- `valid_format`: the three 8-bit pixel formats the encoder
supports (I420, NV12, I444). -/
def valid_format (format : VideoFormat) : Bool :=
  format == VideoFormat.I420 ||
  format == VideoFormat.NV12 ||
  format == VideoFormat.I444

/-- `nvenc_video_info`: reads the encoder's preferred video format
(`pref`); when it is not one of the supported formats, falls back to
the proposed `info.format` when that is supported, else to NV12; the
result is written into `info.format`.  The encoder's preferred format
(`obs_encoder_get_preferred_video_format`) is passed as the `pref`
argument. -/
def nvenc_video_info (pref : VideoFormat) (info : VideoScaleInfo) :
    VideoScaleInfo :=
  let pref_format :=
    if valid_format pref then pref
    else if valid_format info.format then info.format
    else VideoFormat.NV12
  { info with format := pref_format }

/-- ASCII lowercase on a character code: maps `A`-`Z` (65-90) to
`a`-`z` (97-122) and leaves every other code unchanged. -/
def ascii_lower (n : Nat) : Nat := if 65 ≤ n ∧ n ≤ 90 then n + 32 else n

/-- The character codes of a string, ASCII-lowercased. -/
def lower_codes (a : String) : List Nat :=
  a.toList.map (fun ch => ascii_lower ch.toNat)

/-- Modelled from the spec: `astrcmpi` (util/dstr.h, not under src/) is
an ASCII case-insensitive string comparison; this is the equality test
`astrcmpi(a, b) == 0`. -/
def astrcmpi_eq (a b : String) : Bool :=
  lower_codes a == lower_codes b

/-- The settings the encoder reads from the `obs_data_t` settings
object in `nvenc_update`, with the same names and C types (`int`
values as `Int`, strings, bools). -/
structure Settings where
  rate_control : String
  bitrate : Int
  cqp : Int
  keyint_sec : Int
  preset : String
  profile : String
  level : String
  twopass : Bool
  gpu : Int
  cbr : Bool
  bf : Int
  deriving DecidableEq, Repr

/-- The device parameter struct: the `AVCodecContext` fields (and
nvenc private options, prefixed `priv_`) that `nvenc_update` writes. -/
structure Context where
  priv_cbr : Bool
  priv_profile : String
  priv_preset : String
  priv_level : String
  priv_twopass : Bool
  priv_gpu : Int
  global_quality : Int
  rc_max_rate : Int
  rc_min_rate : Int
  bit_rate : Int
  rc_buffer_size : Int
  width : Int
  height : Int
  time_base_num : Int
  time_base_den : Int
  pix_fmt : AVPixelFormat
  colorspace : AVColorSpace
  color_range : AVColorRange
  max_b_frames : Int
  gop_size : Int
  deriving DecidableEq, Repr

/-- The device parameter struct as freshly allocated by
`avcodec_alloc_context3` (zero-initialised numeric fields; the values
the translation of the claims depends on are `global_quality = 0`,
`rc_max_rate = 0`, `rc_min_rate = 0`). -/
def freshContext : Context where
  priv_cbr := false
  priv_profile := ""
  priv_preset := ""
  priv_level := ""
  priv_twopass := false
  priv_gpu := 0
  global_quality := 0
  rc_max_rate := 0
  rc_min_rate := 0
  bit_rate := 0
  rc_buffer_size := 0
  width := 0
  height := 0
  time_base_num := 0
  time_base_den := 0
  pix_fmt := AVPixelFormat.NONE
  colorspace := AVColorSpace.BT470BG
  color_range := AVColorRange.MPEG
  max_b_frames := 0
  gop_size := 0

/-- The encoder-side environment `nvenc_update` queries: the stream
properties (`video_output_get_info`), the encoder's preferred video
format, and the output dimensions (`obs_encoder_get_width/height`). -/
structure EncoderEnv where
  voi : VideoOutputInfo
  pref_format : VideoFormat
  enc_width : Int
  enc_height : Int
  deriving DecidableEq, Repr

/-- The settings-translation part of `nvenc_update` (lines 134-213 of
the source): reads the settings, applies the deprecated `"cbr"`
override, negotiates the format via `nvenc_video_info`, applies the
rate-control branch (`cqp` / `lossless` / default-CBR / `vbr`), and
writes the derived device parameters into the context.  Takes the
device parameter struct before the call and returns it after. -/
def nvenc_translate (c : Context) (env : EncoderEnv) (s : Settings) :
    Context :=
  let rc := if s.cbr then "CBR" else s.rate_control
  let info : VideoScaleInfo :=
    { format := env.voi.format
      colorspace := env.voi.colorspace
      range := env.voi.range }
  let info := nvenc_video_info env.pref_format info
  let c := { c with priv_cbr := false, priv_profile := s.profile,
                    priv_preset := s.preset }
  let (c, bitrate, cqp) :=
    if astrcmpi_eq rc "cqp" then
      ({ c with global_quality := s.cqp }, (0 : Int), s.cqp)
    else if astrcmpi_eq rc "lossless" then
      let hp := astrcmpi_eq s.preset "hp" || astrcmpi_eq s.preset "llhp"
      ({ c with priv_preset := if hp then "losslesshp" else "lossless" },
       (0 : Int), (0 : Int))
    else if !(astrcmpi_eq rc "vbr") then
      ({ c with priv_cbr := true,
                rc_max_rate := s.bitrate * 1000,
                rc_min_rate := s.bitrate * 1000 },
       s.bitrate, (0 : Int))
    else
      (c, s.bitrate, s.cqp)
  let _ := cqp
  let c := { c with priv_level := s.level, priv_twopass := s.twopass,
                    priv_gpu := s.gpu,
                    bit_rate := bitrate * 1000,
                    rc_buffer_size := bitrate * 1000,
                    width := env.enc_width,
                    height := env.enc_height,
                    time_base_num := env.voi.fps_den,
                    time_base_den := env.voi.fps_num,
                    pix_fmt := obs_to_ffmpeg_video_format info.format,
                    colorspace :=
                      if env.voi.colorspace == VideoColorspace.CS_709
                      then AVColorSpace.BT709 else AVColorSpace.BT470BG,
                    color_range :=
                      if env.voi.range == VideoRange.RANGE_FULL
                      then AVColorRange.JPEG else AVColorRange.MPEG,
                    max_b_frames := s.bf }
  let gop : Int :=
    if s.keyint_sec ≠ 0
    then Int.tdiv (s.keyint_sec * (env.voi.fps_num : Int)) (env.voi.fps_den : Int)
    else 250
  { c with gop_size := gop }

/-- `MAX_AV_PLANES`: the number of plane slots of an OBS frame. -/
def MAX_AV_PLANES : Nat := 8

/-- `AVPicture`: per-plane byte buffers (a byte memory indexed by
offset) and per-plane row strides.  Strides are modelled as `Nat`: the
staging picture is produced by `avpicture_alloc`, whose linesizes are
non-negative. -/
structure Picture where
  data : Fin 8 → (Nat → Nat)
  linesize : Fin 8 → Nat

/-- `struct encoder_frame`: up to `MAX_AV_PLANES` optional plane
buffers (absent planes are NULL pointers), per-plane strides
(`uint32_t`), and a presentation timestamp. -/
structure Frame where
  data : Fin 8 → Option (Nat → Nat)
  linesize : Fin 8 → Nat
  pts : Int

/-- One `memcpy(pic->data[plane] + pos_pic, frame->data[plane] +
pos_frame, bytes)`: the destination bytes at offsets `[pos_pic,
pos_pic + bytes)` become the source bytes starting at `pos_frame`;
everything else is unchanged. -/
def copy_row (dst src : Nat → Nat) (pos_pic pos_frame bytes : Nat) :
    Nat → Nat :=
  fun a =>
    if pos_pic ≤ a ∧ a < pos_pic + bytes
    then src (pos_frame + (a - pos_pic))
    else dst a

/-- The row loop of `copy_data` for one plane: copies rows
`y = 0, ..., n-1`, row `y` going from source offset `y *
frame_rowsize` to destination offset `y * pic_rowsize`, `bytes` bytes
each. -/
def copy_rows (src : Nat → Nat) (pic_rowsize frame_rowsize bytes : Nat) :
    (Nat → Nat) → Nat → (Nat → Nat)
  | dst, 0 => dst
  | dst, n + 1 =>
      copy_row (copy_rows src pic_rowsize frame_rowsize bytes dst n)
        src (n * pic_rowsize) (n * frame_rowsize) bytes

/-- `copy_data`: for every plane present in the frame (absent planes
are skipped), copies `min(frame_rowsize, pic_rowsize)` bytes per row,
row by row, at full `height` for plane 0 and `height / 2` for the
other planes.  `height` is a C `int`; a non-positive plane height
copies no rows. -/
def copy_data (pic : Picture) (frame : Frame) (height : Int) : Picture :=
  { pic with data := fun plane =>
      match frame.data plane with
      | none => pic.data plane
      | some src =>
          let frame_rowsize := frame.linesize plane
          let pic_rowsize := pic.linesize plane
          let bytes :=
            if frame_rowsize < pic_rowsize then frame_rowsize else pic_rowsize
          let plane_height : Int :=
            if plane = (0 : Fin 8) then height else Int.tdiv height 2
          copy_rows src pic_rowsize frame_rowsize bytes (pic.data plane)
            plane_height.toNat }

/-- The packet type tag written by the encoder. -/
inductive PacketType where
  | VIDEO
  deriving DecidableEq, Repr

/-- The fields of `struct encoder_packet` that `nvenc_encode`
writes. -/
structure Packet where
  pts : Int
  dts : Int
  data : List Nat
  ptype : PacketType
  keyframe : Bool
  deriving Repr

/-- The device's response to one `avcodec_encode_video2` call: the
return code, the `got_packet` output flag, and the produced
`AVPacket`'s payload and timestamps. -/
structure AVPacketOut where
  ret : Int
  got_packet : Bool
  data : List Nat
  pts : Int
  dts : Int

/-- `struct nvenc_encoder`: the session state the modelled operations
read and write — the device parameter struct, the configured height,
the staging picture, the header/SEI/accumulation buffers, the
`first_packet` flag, and the resource flags set while opening the
codec (`device_open` for `avcodec_open2`, `vframe_alloc` for
`av_frame_alloc`, `pic_alloc` for `avpicture_alloc`, `inited` for the
`initialized` field). -/
structure Session where
  ctx : Context
  height : Int
  first_packet : Bool
  dst_picture : Picture
  vframe_pts : Int
  header : List Nat
  sei : List Nat
  buffer : List Nat
  device_open : Bool
  vframe_alloc : Bool
  pic_alloc : Bool
  inited : Bool

/-- A session as produced by `nvenc_create` before `nvenc_update`
runs: zeroed context, `first_packet = true`, empty buffers, nothing
opened or allocated. -/
def freshSession : Session where
  ctx := freshContext
  height := 0
  first_packet := true
  dst_picture := { data := fun _ => fun _ => 0, linesize := fun _ => 0 }
  vframe_pts := 0
  header := []
  sei := []
  buffer := []
  device_open := false
  vframe_alloc := false
  pic_alloc := false
  inited := false

/-- The outcomes of the device calls made by `nvenc_init_codec`:
whether `avcodec_open2`, `av_frame_alloc` and `avpicture_alloc`
succeed, and the staging picture `avpicture_alloc` hands back on
success. -/
structure DeviceInit where
  open_ok : Bool
  frame_ok : Bool
  pic_ok : Bool
  pic : Picture

/-- `nvenc_init_codec`: opens the codec (`avcodec_open2`), allocates
the video frame, allocates the staging `dst_picture`, and sets
`initialized`; fails (returning `false`) at the first device call
that fails, keeping the partial state reached so far. -/
def nvenc_init_codec (s : Session) (d : DeviceInit) : Session × Bool :=
  if !d.open_ok then (s, false)
  else
    let s := { s with device_open := true }
    if !d.frame_ok then (s, false)
    else
      let s := { s with vframe_alloc := true }
      if !d.pic_ok then (s, false)
      else
        ({ s with pic_alloc := true, dst_picture := d.pic, inited := true },
         true)

/-- `nvenc_update`: translates the settings into the device parameter
struct (`nvenc_translate`), records the configured height, and then —
as its final statement, `return nvenc_init_codec(enc);` — opens the
codec and allocates the staging buffers. -/
def nvenc_update (s : Session) (env : EncoderEnv) (settings : Settings)
    (d : DeviceInit) : Session × Bool :=
  let c := nvenc_translate s.ctx env settings
  let s := { s with ctx := c, height := c.height }
  nvenc_init_codec s d

/-- Splits an Annex-B byte stream at its 3-byte (`00 00 01`) and
4-byte (`00 00 00 01`) start codes; each chunk after the first keeps
its start code.  `cur` is the chunk being accumulated, `acc` the
finished chunks. -/
def split_nals_go : List Nat → List Nat → List (List Nat) → List (List Nat)
  | 0 :: 0 :: 0 :: 1 :: rest, cur, acc =>
      split_nals_go rest [0, 0, 0, 1] (acc ++ [cur])
  | 0 :: 0 :: 1 :: rest, cur, acc =>
      split_nals_go rest [0, 0, 1] (acc ++ [cur])
  | b :: rest, cur, acc => split_nals_go rest (cur ++ [b]) acc
  | [], cur, acc => acc ++ [cur]

/-- The NAL units of an Annex-B byte stream, each carrying its start
code (the possibly-empty bytes before the first start code are kept
as a typeless leading chunk when non-empty). -/
def nal_units (d : List Nat) : List (List Nat) :=
  (split_nals_go d [] []).filter (fun u => !u.isEmpty)

/-- The NAL unit type (low 5 bits of the byte after the start code). -/
def nal_type (u : List Nat) : Option Nat :=
  match u with
  | 0 :: 0 :: 0 :: 1 :: b :: _ => some (b % 32)
  | 0 :: 0 :: 1 :: b :: _ => some (b % 32)
  | _ => none

/-- H.264 NAL type 7: sequence parameter set. -/
def OBS_NAL_SPS : Nat := 7
/-- H.264 NAL type 8: picture parameter set. -/
def OBS_NAL_PPS : Nat := 8
/-- H.264 NAL type 6: supplemental enhancement information. -/
def OBS_NAL_SEI : Nat := 6
/-- H.264 NAL type 5: IDR slice. -/
def OBS_NAL_SLICE_IDR : Nat := 5

/-- Whether a NAL unit is a parameter set (SPS or PPS). -/
def is_param_set (u : List Nat) : Bool :=
  nal_type u == some OBS_NAL_SPS || nal_type u == some OBS_NAL_PPS

/-- Whether a NAL unit is an SEI unit. -/
def is_sei_nal (u : List Nat) : Bool :=
  nal_type u == some OBS_NAL_SEI

/-- Modelled from the spec: `obs_extract_avc_headers` (obs-avc.c, not
under src/) parses the Annex-B start-code-delimited NAL unit stream
and partitions it into the parameter-set NAL units (→ configuration
record), any SEI NAL unit (→ SEI buffer), and everything else (slice
data → packet payload).  Returns `(payload, header, sei)`. -/
def obs_avc_split_headers (d : List Nat) :
    List Nat × List Nat × List Nat :=
  let us := nal_units d
  ((us.filter (fun u => !is_param_set u && !is_sei_nal u)).flatten,
   (us.filter is_param_set).flatten,
   (us.filter is_sei_nal).flatten)

/-- Modelled from the spec: `obs_avc_keyframe` (obs-avc.c, not under
src/) reports whether the payload contains an IDR NAL type. -/
def obs_avc_keyframe (d : List Nat) : Bool :=
  (nal_units d).any (fun u => nal_type u == some OBS_NAL_SLICE_IDR)

/-- `nvenc_encode`: stages the frame into the picture buffer, submits
it to the device (whose response is the `dev` argument), and returns
the new session, the call's success flag, and the produced packet
(`none` models `*received_packet = false`).  On the first non-empty
packet the output is split by `obs_avc_split_headers` into header,
SEI and payload; afterwards the raw output is copied into the
accumulation buffer verbatim. -/
def nvenc_encode (s : Session) (frame : Frame) (dev : AVPacketOut) :
    Session × Bool × Option Packet :=
  let s := { s with dst_picture := copy_data s.dst_picture frame s.height,
                    vframe_pts := frame.pts }
  if dev.ret < 0 then (s, false, none)
  else if dev.got_packet && !dev.data.isEmpty then
    let s :=
      if s.first_packet then
        let r := obs_avc_split_headers dev.data
        { s with first_packet := false, header := r.2.1, sei := r.2.2,
                 buffer := r.1 }
      else
        { s with buffer := dev.data }
    (s, true,
     some { pts := dev.pts, dts := dev.dts, data := s.buffer,
            ptype := PacketType.VIDEO,
            keyframe := obs_avc_keyframe s.buffer })
  else (s, true, none)

/-- A sequence of `nvenc_encode` calls on one session: returns the
final session and, per call, the produced packet (`none` when the
call produced nothing or failed). -/
def nvenc_encode_trace (s : Session) :
    List (Frame × AVPacketOut) → Session × List (Option Packet)
  | [] => (s, [])
  | (f, d) :: rest =>
      let r := nvenc_encode s f d
      let t := nvenc_encode_trace r.1 rest
      (t.1, r.2.2 :: t.2)

/-! Concrete sample inputs used by the witnesses below. -/

/-- A sample encoder environment: NV12 source, 30/1 frame rate,
1280x720, no preferred format set on the encoder. -/
def envA : EncoderEnv :=
  { voi := { format := VideoFormat.NV12, colorspace := VideoColorspace.CS_601,
             range := VideoRange.RANGE_PARTIAL, fps_num := 30, fps_den := 1 },
    pref_format := VideoFormat.NONE, enc_width := 1280, enc_height := 720 }

/-- The default settings of `nvenc_defaults`. -/
def settingsBase : Settings :=
  { rate_control := "CBR", bitrate := 850, cqp := 23, keyint_sec := 0,
    preset := "default", profile := "main", level := "auto", twopass := true,
    gpu := 0, cbr := false, bf := 2 }

/-- Default settings switched to CQP mode with quantizer 20. -/
def settingsCQP : Settings :=
  { settingsBase with rate_control := "CQP", cqp := 20 }

/-- Default settings switched to lossless mode with the llhp preset. -/
def settingsLossless : Settings :=
  { settingsBase with rate_control := "Lossless", preset := "llhp" }

/-- Default settings with the deprecated "cbr" flag set while asking
for VBR. -/
def settingsCbrOverride : Settings :=
  { settingsBase with rate_control := "VBR", cbr := true }

/-- A device-init outcome where every device call succeeds. -/
def devInitOk : DeviceInit :=
  { open_ok := true, frame_ok := true, pic_ok := true,
    pic := { data := fun _ => fun _ => 0,
             linesize := fun p => if p = 0 then 1280 else 640 } }

/-- A device-init outcome where `avcodec_open2` fails. -/
def devInitFail : DeviceInit :=
  { open_ok := false, frame_ok := false, pic_ok := false,
    pic := { data := fun _ => fun _ => 0, linesize := fun _ => 0 } }

/-- The `gop_size` written by the translation, independent of the
rate-control branch taken. -/
lemma nvenc_translate_gop_size (c : Context) (env : EncoderEnv) (s : Settings) :
    (nvenc_translate c env s).gop_size =
      (if s.keyint_sec ≠ 0
       then Int.tdiv (s.keyint_sec * (env.voi.fps_num : Int))
              (env.voi.fps_den : Int)
       else 250) := by
  unfold nvenc_translate
  rcases h1 : astrcmpi_eq (if s.cbr then "CBR" else s.rate_control) "cqp" <;>
  rcases h2 : astrcmpi_eq (if s.cbr then "CBR" else s.rate_control) "lossless" <;>
  rcases h3 : astrcmpi_eq (if s.cbr then "CBR" else s.rate_control) "vbr" <;>
    simp [h1, h2, h3]

/-- Two strings cannot be case-insensitively equal to two strings
whose lowered code lists differ. -/
lemma astrcmpi_eq_false_of_ne (a b b' : String)
    (h : astrcmpi_eq a b = true) (hne : lower_codes b ≠ lower_codes b') :
    astrcmpi_eq a b' = false := by
  simp only [astrcmpi_eq, beq_iff_eq] at h ⊢
  rw [h]
  simpa using hne

/-- C1: with a fresh device parameter struct (the only state
`nvenc_update` ever runs on, since it is called once from
`nvenc_create` right after `avcodec_alloc_context3`), the
rate-control translation maps the modes as specified: CQP zeroes the
bitrate and passes the quantizer through to `global_quality`; VBR
passes the bitrate through and leaves the min/max rate clamps unset
(zero); the default CBR case forces `rc_min_rate` and `rc_max_rate`
to the requested bitrate and leaves the quality parameter zero. -/
theorem rate_control_device_mapping (env : EncoderEnv) (s : Settings)
    (hc : s.cbr = false) :
    (astrcmpi_eq s.rate_control "cqp" = true →
       (nvenc_translate freshContext env s).bit_rate = 0 ∧
       (nvenc_translate freshContext env s).global_quality = s.cqp) ∧
    (astrcmpi_eq s.rate_control "vbr" = true →
       (nvenc_translate freshContext env s).bit_rate = s.bitrate * 1000 ∧
       (nvenc_translate freshContext env s).rc_min_rate = 0 ∧
       (nvenc_translate freshContext env s).rc_max_rate = 0) ∧
    (astrcmpi_eq s.rate_control "cqp" = false →
     astrcmpi_eq s.rate_control "lossless" = false →
     astrcmpi_eq s.rate_control "vbr" = false →
       (nvenc_translate freshContext env s).rc_min_rate = s.bitrate * 1000 ∧
       (nvenc_translate freshContext env s).rc_max_rate = s.bitrate * 1000 ∧
       (nvenc_translate freshContext env s).bit_rate = s.bitrate * 1000 ∧
       (nvenc_translate freshContext env s).global_quality = 0) := by
  refine ⟨fun h => ?_, fun h => ?_, fun h1 h2 h3 => ?_⟩
  · constructor <;> simp [nvenc_translate, hc, h, freshContext]
  · have h1 : astrcmpi_eq s.rate_control "cqp" = false :=
      astrcmpi_eq_false_of_ne _ _ _ h (by decide)
    have h2 : astrcmpi_eq s.rate_control "lossless" = false :=
      astrcmpi_eq_false_of_ne _ _ _ h (by decide)
    refine ⟨?_, ?_, ?_⟩ <;> simp [nvenc_translate, hc, h, h1, h2, freshContext]
  · refine ⟨?_, ?_, ?_, ?_⟩ <;>
      simp [nvenc_translate, hc, h1, h2, h3, freshContext]

/-- Witness for C1 at a concrete CQP input. -/
theorem rate_control_device_mapping_witness :
    settingsCQP.cbr = false ∧
    astrcmpi_eq settingsCQP.rate_control "cqp" = true ∧
    (nvenc_translate freshContext envA settingsCQP).bit_rate = 0 ∧
    (nvenc_translate freshContext envA settingsCQP).global_quality = 20 :=
  ⟨rfl, by decide,
   ((rate_control_device_mapping envA settingsCQP rfl).1 (by decide)).1,
   ((rate_control_device_mapping envA settingsCQP rfl).1 (by decide)).2⟩

/-- C4: the keyframe interval written to `gop_size` is
`keyint_sec * fps_num / fps_den` (C integer division) when the
seconds value is non-zero, and the fixed fallback 250 when it is
zero. -/
theorem keyframe_interval_from_fps (c : Context) (env : EncoderEnv)
    (s : Settings) :
    (s.keyint_sec ≠ 0 →
       (nvenc_translate c env s).gop_size =
         Int.tdiv (s.keyint_sec * (env.voi.fps_num : Int))
           (env.voi.fps_den : Int)) ∧
    (s.keyint_sec = 0 → (nvenc_translate c env s).gop_size = 250) := by
  rw [nvenc_translate_gop_size c env s]
  constructor
  · intro h
    simp [h]
  · intro h
    simp [h]

/-- Witness for C4: `keyint_sec = 2` at a 30/1 frame rate yields an
interval of 60 frames; the default `keyint_sec = 0` yields 250. -/
theorem keyframe_interval_from_fps_witness :
    (({ settingsBase with keyint_sec := 2 } : Settings).keyint_sec ≠ 0 ∧
     (nvenc_translate freshContext envA
        { settingsBase with keyint_sec := 2 }).gop_size = 60) ∧
    (settingsBase.keyint_sec = 0 ∧
     (nvenc_translate freshContext envA settingsBase).gop_size = 250) :=
  ⟨⟨by decide,
    ((keyframe_interval_from_fps freshContext envA
        { settingsBase with keyint_sec := 2 }).1 (by decide)).trans (by decide)⟩,
   ⟨rfl, (keyframe_interval_from_fps freshContext envA settingsBase).2 rfl⟩⟩

/-- C5: in lossless mode (fresh device parameter struct, as in C1),
the translation zeroes the bitrate, buffer size and quality
parameter, and substitutes the preset: `losslesshp` when the
requested preset is `hp` or `llhp` (case-insensitively), else
`lossless`. -/
theorem lossless_forces_zero_and_preset (env : EncoderEnv) (s : Settings)
    (hc : s.cbr = false)
    (h : astrcmpi_eq s.rate_control "lossless" = true) :
    (nvenc_translate freshContext env s).bit_rate = 0 ∧
    (nvenc_translate freshContext env s).rc_buffer_size = 0 ∧
    (nvenc_translate freshContext env s).global_quality = 0 ∧
    (nvenc_translate freshContext env s).priv_preset =
      (if astrcmpi_eq s.preset "hp" || astrcmpi_eq s.preset "llhp"
       then "losslesshp" else "lossless") := by
  have h1 : astrcmpi_eq s.rate_control "cqp" = false :=
    astrcmpi_eq_false_of_ne _ _ _ h (by decide)
  refine ⟨?_, ?_, ?_, ?_⟩ <;>
    simp [nvenc_translate, hc, h, h1, freshContext]

/-- Witness for C5 at a concrete lossless input with the llhp
preset. -/
theorem lossless_forces_zero_and_preset_witness :
    settingsLossless.cbr = false ∧
    astrcmpi_eq settingsLossless.rate_control "lossless" = true ∧
    (nvenc_translate freshContext envA settingsLossless).bit_rate = 0 ∧
    (nvenc_translate freshContext envA settingsLossless).priv_preset =
      "losslesshp" :=
  ⟨rfl, by decide,
   (lossless_forces_zero_and_preset envA settingsLossless rfl (by decide)).1,
   ((lossless_forces_zero_and_preset envA settingsLossless rfl
       (by decide)).2.2.2).trans (by decide)⟩

/-- C9: the negotiated format is always one of the three supported
formats; when the encoder's preferred format is unsupported, the
source's proposed format is reported when supported, else NV12; a
supported preferred format is reported as-is. -/
theorem video_info_reports_supported (pref : VideoFormat)
    (info : VideoScaleInfo) :
    valid_format (nvenc_video_info pref info).format = true ∧
    (valid_format pref = false → valid_format info.format = true →
       (nvenc_video_info pref info).format = info.format) ∧
    (valid_format pref = false → valid_format info.format = false →
       (nvenc_video_info pref info).format = VideoFormat.NV12) ∧
    (valid_format pref = true →
       (nvenc_video_info pref info).format = pref) := by
  refine ⟨?_, fun h1 h2 => ?_, fun h1 h2 => ?_, fun h => ?_⟩
  · rcases info with ⟨f, cs, r⟩
    rcases pref <;> rcases f <;> simp [nvenc_video_info, valid_format]
  · simp [nvenc_video_info, h1, h2]
  · simp [nvenc_video_info, h1, h2]
  · simp [nvenc_video_info, h]

/-- Witness for C9: RGBA preference is unsupported, so a supported
I420 source format is reported. -/
theorem video_info_reports_supported_witness :
    valid_format VideoFormat.RGBA = false ∧
    valid_format VideoFormat.I420 = true ∧
    (nvenc_video_info VideoFormat.RGBA
       { format := VideoFormat.I420, colorspace := VideoColorspace.CS_601,
         range := VideoRange.RANGE_PARTIAL }).format = VideoFormat.I420 :=
  ⟨rfl, rfl, (video_info_reports_supported VideoFormat.RGBA
     { format := VideoFormat.I420, colorspace := VideoColorspace.CS_601,
       range := VideoRange.RANGE_PARTIAL }).2.1 rfl rfl⟩

/-- C10: when the deprecated "cbr" flag is set, the translation
behaves exactly as if `rate_control` were the string "CBR" (forcing
the CBR branch: `cbr` private option set, min/max rate forced to the
bitrate), whatever string the settings carry; with the flag clear the
`rate_control` string is used as given. -/
theorem cbr_override_forces_cbr (c : Context) (env : EncoderEnv)
    (s : Settings) :
    (s.cbr = true →
       nvenc_translate c env s =
         nvenc_translate c env { s with rate_control := "CBR" } ∧
       (nvenc_translate c env s).priv_cbr = true ∧
       (nvenc_translate c env s).rc_max_rate = s.bitrate * 1000 ∧
       (nvenc_translate c env s).rc_min_rate = s.bitrate * 1000) ∧
    (s.cbr = false →
       nvenc_translate c env s =
         nvenc_translate c env { s with rate_control := s.rate_control }) := by
  have e1 : astrcmpi_eq "CBR" "cqp" = false := by decide
  have e2 : astrcmpi_eq "CBR" "lossless" = false := by decide
  have e3 : astrcmpi_eq "CBR" "vbr" = false := by decide
  constructor
  · intro h
    refine ⟨?_, ?_, ?_, ?_⟩ <;> simp [nvenc_translate, h, e1, e2, e3]
  · intro h
    rfl

/-- Witness for C10: with the flag set and `rate_control = "VBR"`,
the CBR branch is still taken. -/
theorem cbr_override_forces_cbr_witness :
    settingsCbrOverride.cbr = true ∧
    nvenc_translate freshContext envA settingsCbrOverride =
      nvenc_translate freshContext envA
        { settingsCbrOverride with rate_control := "CBR" } ∧
    (nvenc_translate freshContext envA settingsCbrOverride).priv_cbr = true :=
  ⟨rfl,
   ((cbr_override_forces_cbr freshContext envA settingsCbrOverride).1 rfl).1,
   ((cbr_override_forces_cbr freshContext envA settingsCbrOverride).1
      rfl).2.1⟩

/-- C8 counterexample: `nvenc_update` does not stop at translating
settings — its final statement calls `nvenc_init_codec`, so a single
`nvenc_update` call on a fresh session opens the device and allocates
the staging picture. -/
theorem update_opens_device_counterexample :
    freshSession.device_open = false ∧ freshSession.inited = false ∧
    (nvenc_update freshSession envA settingsBase devInitOk).1.device_open
      = true ∧
    (nvenc_update freshSession envA settingsBase devInitOk).1.inited = true ∧
    (nvenc_update freshSession envA settingsBase devInitOk).1.pic_alloc
      = true :=
  ⟨rfl, rfl, rfl, rfl, rfl⟩

/-- C8 amended: `nvenc_update` first translates the settings into the
device parameter struct — a step that performs no device operation,
as shown by the failing-open case where all resource flags are
unchanged — and then, as its final action, itself invokes the codec
opening step (`nvenc_init_codec`); there is no separate open entry
point. -/
theorem update_translates_then_opens (s : Session) (env : EncoderEnv)
    (set : Settings) (d : DeviceInit) :
    nvenc_update s env set d =
      nvenc_init_codec
        { s with ctx := nvenc_translate s.ctx env set,
                 height := (nvenc_translate s.ctx env set).height } d ∧
    (d.open_ok = false →
       (nvenc_update s env set d).1.device_open = s.device_open ∧
       (nvenc_update s env set d).1.inited = s.inited ∧
       (nvenc_update s env set d).1.pic_alloc = s.pic_alloc ∧
       (nvenc_update s env set d).2 = false) ∧
    (d.open_ok = true →
       (nvenc_update s env set d).1.device_open = true) := by
  refine ⟨rfl, fun h => ?_, fun h => ?_⟩
  · refine ⟨?_, ?_, ?_, ?_⟩ <;> simp [nvenc_update, nvenc_init_codec, h]
  · by_cases hf : d.frame_ok <;> by_cases hp : d.pic_ok <;>
      simp [nvenc_update, nvenc_init_codec, h, hf, hp]

/-- Witness for C8 amended: a failing open leaves the fresh session's
flags untouched, a succeeding one opens the device. -/
theorem update_translates_then_opens_witness :
    (devInitFail.open_ok = false ∧
     (nvenc_update freshSession envA settingsBase devInitFail).1.device_open
       = freshSession.device_open) ∧
    (devInitOk.open_ok = true ∧
     (nvenc_update freshSession envA settingsBase devInitOk).1.device_open
       = true) :=
  ⟨⟨rfl, ((update_translates_then_opens freshSession envA settingsBase
      devInitFail).2.1 rfl).1⟩,
   ⟨rfl, (update_translates_then_opens freshSession envA settingsBase
      devInitOk).2.2 rfl⟩⟩

/-- A byte inside a row that has been copied reads back the staged
source byte: after copying rows `0..n-1`, the destination byte at
`y * pic_rowsize + off` (row `y < n`, offset `off < bytes ≤
pic_rowsize`) is the source byte at `y * frame_rowsize + off`. -/
lemma copy_rows_hit (src : Nat → Nat) (pr fr bytes : Nat) (dst : Nat → Nat)
    (n y off : Nat) (hb : bytes ≤ pr) (hy : y < n) (hoff : off < bytes) :
    copy_rows src pr fr bytes dst n (y * pr + off) = src (y * fr + off) := by
  induction n generalizing dst with
  | zero => omega
  | succ n ih =>
      simp only [copy_rows, copy_row]
      rcases Nat.lt_succ_iff_lt_or_eq.mp hy with h | h
      · have hlt : y * pr + off < n * pr := by
          have h1 : (y + 1) * pr ≤ n * pr := Nat.mul_le_mul_right pr h
          have h2 : y * pr + pr = (y + 1) * pr := (Nat.succ_mul y pr).symm
          omega
        rw [if_neg (by omega)]
        exact ih dst h
      · subst h
        rw [if_pos (by omega)]
        congr 1
        omega

/-- A byte outside every copied row range is untouched by the row
loop. -/
lemma copy_rows_miss (src : Nat → Nat) (pr fr bytes : Nat) (dst : Nat → Nat)
    (n a : Nat) (h : ∀ m, m < n → ¬(m * pr ≤ a ∧ a < m * pr + bytes)) :
    copy_rows src pr fr bytes dst n a = dst a := by
  induction n with
  | zero => rfl
  | succ n ih =>
      simp only [copy_rows, copy_row]
      rw [if_neg (h n (Nat.lt_succ_self n))]
      exact ih (fun m hm => h m (Nat.lt_trans hm (Nat.lt_succ_self n)))

/-- The `bytes` computed by `copy_data` is the minimum of the two
strides. -/
lemma copy_bytes_eq_min (fr pr : Nat) :
    (if fr < pr then fr else pr) = min fr pr := by
  rcases Nat.lt_or_ge fr pr with h | h
  · simp [Nat.min_def, h, Nat.le_of_lt]
  · simp [Nat.min_def, h, Nat.not_lt.mpr h]

/-- C3: the frame stager leaves absent planes untouched; for a
present plane it copies, row by row, exactly
`min(frame_stride, pic_stride)` bytes per row — a staged byte inside
a row reads back the source byte at the same row/offset under the
source stride, and a byte of a row beyond the copied width is
untouched — at full height for plane 0 and half height for the other
planes. -/
theorem copy_data_stages_planes (pic : Picture) (frame : Frame)
    (height : Int) (plane : Fin 8) :
    (frame.data plane = none →
       (copy_data pic frame height).data plane = pic.data plane) ∧
    (∀ src, frame.data plane = some src →
       ∀ y off : Nat,
         y < (if plane = 0 then height else Int.tdiv height 2).toNat →
         off < min (frame.linesize plane) (pic.linesize plane) →
         (copy_data pic frame height).data plane
             (y * pic.linesize plane + off) =
           src (y * frame.linesize plane + off)) ∧
    (∀ src, frame.data plane = some src →
       ∀ y off : Nat,
         min (frame.linesize plane) (pic.linesize plane) ≤ off →
         off < pic.linesize plane →
         (copy_data pic frame height).data plane
             (y * pic.linesize plane + off) =
           pic.data plane (y * pic.linesize plane + off)) := by
  refine ⟨fun h => ?_, fun src h y off hy hoff => ?_,
          fun src h y off h1 h2 => ?_⟩
  · simp [copy_data, h]
  · simp only [copy_data, h]
    rw [copy_bytes_eq_min]
    exact copy_rows_hit src (pic.linesize plane) (frame.linesize plane)
      (min (frame.linesize plane) (pic.linesize plane)) (pic.data plane)
      _ y off (Nat.min_le_right _ _) hy hoff
  · simp only [copy_data, h]
    rw [copy_bytes_eq_min]
    refine copy_rows_miss src (pic.linesize plane) (frame.linesize plane)
      (min (frame.linesize plane) (pic.linesize plane)) (pic.data plane)
      _ _ (fun m _ => ?_)
    rintro ⟨hm1, hm2⟩
    rcases Nat.lt_or_ge y m with hmy | hmy
    · have hge : (y + 1) * pic.linesize plane ≤ m * pic.linesize plane :=
        Nat.mul_le_mul_right _ hmy
      have he : y * pic.linesize plane + pic.linesize plane =
          (y + 1) * pic.linesize plane := (Nat.succ_mul y _).symm
      omega
    · have hle : m * pic.linesize plane ≤ y * pic.linesize plane :=
        Nat.mul_le_mul_right _ hmy
      omega

/-- A sample staged source plane for the C3 witness. -/
def srcPlane : Nat → Nat := fun a => a + 100

/-- A sample frame with only plane 0 present, stride 2. -/
def frameB : Frame :=
  { data := fun p => if p = 0 then some srcPlane else none,
    linesize := fun _ => 2, pts := 0 }

/-- A sample staging picture with stride 3 and constant byte 7. -/
def picB : Picture :=
  { data := fun _ => fun _ => 7, linesize := fun _ => 3 }

/-- Witness for C3: at height 1 with strides 2 (source) and 3
(picture), byte 1 of row 0 is staged from the source, byte 2 (beyond
`min` of the strides) is untouched, and absent plane 1 keeps its
buffer. -/
theorem copy_data_stages_planes_witness :
    (frameB.data 1 = none ∧
     (copy_data picB frameB 1).data 1 = picB.data 1) ∧
    (frameB.data 0 = some srcPlane ∧
     (copy_data picB frameB 1).data 0 (0 * 3 + 1) = srcPlane (0 * 2 + 1) ∧
     (copy_data picB frameB 1).data 0 (0 * 3 + 1) = 101) ∧
    ((2 : Nat) ≥ min (frameB.linesize 0) (picB.linesize 0) ∧
     (copy_data picB frameB 1).data 0 (0 * 3 + 2) = 7) := by
  have h1 : frameB.data 1 = none := rfl
  have h0 : frameB.data 0 = some srcPlane := rfl
  have hit := (copy_data_stages_planes picB frameB 1 0).2.1 srcPlane h0 0 1
    (by decide) (by decide)
  have miss := (copy_data_stages_planes picB frameB 1 0).2.2 srcPlane h0 0 2
    (by decide) (by decide)
  exact ⟨⟨h1, (copy_data_stages_planes picB frameB 1 1).1 h1⟩,
         ⟨h0, hit, hit.trans rfl⟩,
         ⟨by decide, miss.trans rfl⟩⟩

/-- A sample frame with no planes (staging copies nothing). -/
def frame0 : Frame :=
  { data := fun _ => none, linesize := fun _ => 0, pts := 0 }

/-- A device response: frame accepted (`ret = 0`) but no completed
output. -/
def dev0 : AVPacketOut :=
  { ret := 0, got_packet := true, data := [], pts := 0, dts := 0 }

/-- A device response delivering a first access unit: SPS (type 7),
PPS (type 8), SEI (type 6) and an IDR slice (type 5), each behind a
start code. -/
def devIDR : AVPacketOut :=
  { ret := 0, got_packet := true,
    data := [0, 0, 0, 1, 103, 0, 0, 0, 1, 104, 0, 0, 1, 6, 0, 0, 0, 1, 101],
    pts := 42, dts := 40 }

/-- A device response delivering a non-IDR slice (type 1) only. -/
def devP : AVPacketOut :=
  { ret := 0, got_packet := true, data := [0, 0, 0, 1, 65],
    pts := 43, dts := 41 }

/-- The packet `nvenc_encode` produces from `devIDR` on a fresh
session: the slice payload with the keyframe flag set. -/
def packetIDR : Packet :=
  { pts := 42, dts := 40, data := [0, 0, 0, 1, 101],
    ptype := PacketType.VIDEO, keyframe := true }

/-- C7: a negative device return code fails the call and produces
nothing; a non-negative return code always succeeds, and the call
produces no packet exactly when the device reported no packet or an
empty one (no-output is not an error); the `Option` result carries at
most one packet per call. -/
theorem encode_no_output_not_error (s : Session) (frame : Frame)
    (dev : AVPacketOut) :
    (dev.ret < 0 →
       (nvenc_encode s frame dev).2.1 = false ∧
       (nvenc_encode s frame dev).2.2 = none) ∧
    (0 ≤ dev.ret →
       (nvenc_encode s frame dev).2.1 = true ∧
       ((nvenc_encode s frame dev).2.2 = none ↔
          (dev.got_packet = false ∨ dev.data = []))) := by
  obtain ⟨ret, got, data, pts, dts⟩ := dev
  constructor
  · intro h
    constructor <;> simp [nvenc_encode, h]
  · intro h
    have h' : ¬ ret < 0 := Int.not_lt.mpr h
    constructor
    · rcases got <;> rcases data with _ | ⟨b, bs⟩ <;>
        by_cases hf : s.first_packet <;> simp [nvenc_encode, h', hf]
    · rcases got <;> rcases data with _ | ⟨b, bs⟩ <;>
        by_cases hf : s.first_packet <;> simp [nvenc_encode, h', hf]

/-- Witness for C7: an accepted frame with an empty device packet
yields a successful call and no output. -/
theorem encode_no_output_not_error_witness :
    (0 : Int) ≤ dev0.ret ∧
    (nvenc_encode freshSession frame0 dev0).2.1 = true ∧
    (nvenc_encode freshSession frame0 dev0).2.2 = none :=
  ⟨le_refl 0,
   ((encode_no_output_not_error freshSession frame0 dev0).2 (le_refl 0)).1,
   ((encode_no_output_not_error freshSession frame0 dev0).2
      (le_refl 0)).2.mpr (Or.inr rfl)⟩

/-- C6: every packet `nvenc_encode` produces — first (split) or
subsequent (verbatim) — carries `keyframe = obs_avc_keyframe` of its
own post-split payload, i.e. the flag is true iff the payload
contains an IDR NAL type. -/
theorem keyframe_flag_iff_idr (s : Session) (frame : Frame)
    (dev : AVPacketOut) (p : Packet)
    (h : (nvenc_encode s frame dev).2.2 = some p) :
    p.keyframe = obs_avc_keyframe p.data ∧
    (p.keyframe = true ↔
       ∃ u ∈ nal_units p.data, nal_type u = some OBS_NAL_SLICE_IDR) := by
  have hk : p.keyframe = obs_avc_keyframe p.data := by
    by_cases hr : dev.ret < 0
    · simp [nvenc_encode, hr] at h
    · by_cases hc : (dev.got_packet && !dev.data.isEmpty) = true
      · by_cases hf : s.first_packet
        · simp [nvenc_encode, hr, hc, hf] at h
          subst h
          rfl
        · simp [nvenc_encode, hr, hc, hf] at h
          subst h
          rfl
      · simp [nvenc_encode, hr, hc] at h
  refine ⟨hk, ?_⟩
  rw [hk]
  simp [obs_avc_keyframe, List.any_eq_true]

/-- Witness for C6: the first produced packet of a fresh session fed
`devIDR` has an IDR payload and its keyframe flag is set. -/
theorem keyframe_flag_iff_idr_witness :
    (nvenc_encode freshSession frame0 devIDR).2.2 = some packetIDR ∧
    packetIDR.keyframe = obs_avc_keyframe packetIDR.data ∧
    packetIDR.keyframe = true := by
  have hEq : (nvenc_encode freshSession frame0 devIDR).2.2 =
      some packetIDR := by rfl
  exact ⟨hEq,
    (keyframe_flag_iff_idr freshSession frame0 devIDR packetIDR hEq).1, rfl⟩

/-- `nvenc_encode` on a hard device failure: staging happened, the
call fails, nothing else changes. -/
lemma encode_eq_fail (s : Session) (f : Frame) (d : AVPacketOut)
    (hr : d.ret < 0) :
    nvenc_encode s f d =
      ({ s with dst_picture := copy_data s.dst_picture f s.height,
                vframe_pts := f.pts }, false, none) := by
  simp [nvenc_encode, hr]

/-- `nvenc_encode` when the device produced no (or an empty) packet:
the call succeeds with no output and the session's packet-related
state is untouched. -/
lemma encode_eq_noout (s : Session) (f : Frame) (d : AVPacketOut)
    (hr : ¬ d.ret < 0) (hc : (d.got_packet && !d.data.isEmpty) = false) :
    nvenc_encode s f d =
      ({ s with dst_picture := copy_data s.dst_picture f s.height,
                vframe_pts := f.pts }, true, none) := by
  simp [nvenc_encode, hr, hc]

/-- `nvenc_encode` on the first non-empty packet: the output is split
into header, SEI and payload, the flag is cleared, and the packet
carries the payload. -/
lemma encode_eq_first (s : Session) (f : Frame) (d : AVPacketOut)
    (hr : ¬ d.ret < 0) (hc : (d.got_packet && !d.data.isEmpty) = true)
    (hfp : s.first_packet = true) :
    nvenc_encode s f d =
      ({ s with dst_picture := copy_data s.dst_picture f s.height,
                vframe_pts := f.pts,
                first_packet := false,
                header := (obs_avc_split_headers d.data).2.1,
                sei := (obs_avc_split_headers d.data).2.2,
                buffer := (obs_avc_split_headers d.data).1 }, true,
       some { pts := d.pts, dts := d.dts,
              data := (obs_avc_split_headers d.data).1,
              ptype := PacketType.VIDEO,
              keyframe :=
                obs_avc_keyframe (obs_avc_split_headers d.data).1 }) := by
  simp [nvenc_encode, hr, hc, hfp]

/-- `nvenc_encode` on a non-empty packet after the first: no parsing,
the raw device output is the payload verbatim. -/
lemma encode_eq_later (s : Session) (f : Frame) (d : AVPacketOut)
    (hr : ¬ d.ret < 0) (hc : (d.got_packet && !d.data.isEmpty) = true)
    (hfp : s.first_packet = false) :
    nvenc_encode s f d =
      ({ s with dst_picture := copy_data s.dst_picture f s.height,
                vframe_pts := f.pts,
                buffer := d.data }, true,
       some { pts := d.pts, dts := d.dts, data := d.data,
              ptype := PacketType.VIDEO,
              keyframe := obs_avc_keyframe d.data }) := by
  simp [nvenc_encode, hr, hc, hfp]

/-- A call that produced no packet leaves the first-packet flag and
the header/SEI buffers unchanged. -/
lemma encode_step_no_packet (s : Session) (f : Frame) (d : AVPacketOut)
    (h : (nvenc_encode s f d).2.2 = none) :
    (nvenc_encode s f d).1.first_packet = s.first_packet ∧
    (nvenc_encode s f d).1.header = s.header ∧
    (nvenc_encode s f d).1.sei = s.sei := by
  by_cases hr : d.ret < 0
  · rw [encode_eq_fail s f d hr]
    exact ⟨rfl, rfl, rfl⟩
  · by_cases hc : (d.got_packet && !d.data.isEmpty) = true
    · exfalso
      by_cases hf : s.first_packet
      · rw [encode_eq_first s f d hr hc hf] at h
        simp at h
      · rw [encode_eq_later s f d hr hc (Bool.not_eq_true _ ▸ hf)] at h
        simp at h
    · rw [encode_eq_noout s f d hr (Bool.not_eq_true _ ▸ hc)]
      exact ⟨rfl, rfl, rfl⟩

/-- On a session whose first packet has already been produced, the
first-packet flag stays cleared, and a produced packet carries the
device output verbatim. -/
lemma encode_step_later (s : Session) (f : Frame) (d : AVPacketOut)
    (hfp : s.first_packet = false) :
    (nvenc_encode s f d).1.first_packet = false ∧
    (nvenc_encode s f d).1.header = s.header ∧
    (nvenc_encode s f d).1.sei = s.sei ∧
    ∀ q, (nvenc_encode s f d).2.2 = some q → q.data = d.data := by
  by_cases hr : d.ret < 0
  · rw [encode_eq_fail s f d hr]
    exact ⟨hfp, rfl, rfl, fun q hq => by simp at hq⟩
  · by_cases hc : (d.got_packet && !d.data.isEmpty) = true
    · rw [encode_eq_later s f d hr hc hfp]
      refine ⟨hfp, rfl, rfl, fun q hq => ?_⟩
      obtain rfl := (Option.some.inj hq).symm
      rfl
    · rw [encode_eq_noout s f d hr (Bool.not_eq_true _ ▸ hc)]
      exact ⟨hfp, rfl, rfl, fun q hq => by simp at hq⟩

/-- The first non-empty packet of a fresh-flag session is split:
payload, header and SEI come from `obs_avc_split_headers` and the
flag is cleared. -/
lemma encode_step_first (s : Session) (f : Frame) (d : AVPacketOut)
    (p : Packet) (hfp : s.first_packet = true)
    (h : (nvenc_encode s f d).2.2 = some p) :
    p.data = (obs_avc_split_headers d.data).1 ∧
    (nvenc_encode s f d).1.first_packet = false ∧
    (nvenc_encode s f d).1.header = (obs_avc_split_headers d.data).2.1 ∧
    (nvenc_encode s f d).1.sei = (obs_avc_split_headers d.data).2.2 := by
  by_cases hr : d.ret < 0
  · rw [encode_eq_fail s f d hr] at h
    simp at h
  · by_cases hc : (d.got_packet && !d.data.isEmpty) = true
    · rw [encode_eq_first s f d hr hc hfp] at h ⊢
      obtain rfl := (Option.some.inj h).symm
      exact ⟨rfl, rfl, rfl, rfl⟩
    · rw [encode_eq_noout s f d hr (Bool.not_eq_true _ ▸ hc)] at h
      simp at h

/-- Once the first packet has been produced, a whole trace of further
encode calls never changes the header and SEI buffers, keeps the flag
cleared, and passes every produced payload through verbatim. -/
lemma encode_trace_subsequent (inputs : List (Frame × AVPacketOut))
    (s : Session) (hfp : s.first_packet = false) :
    (nvenc_encode_trace s inputs).1.header = s.header ∧
    (nvenc_encode_trace s inputs).1.sei = s.sei ∧
    (nvenc_encode_trace s inputs).1.first_packet = false ∧
    ∀ (k : Nat) (q : Packet),
      (nvenc_encode_trace s inputs).2[k]? = some (some q) →
      ∃ fd : Frame × AVPacketOut, inputs[k]? = some fd ∧
        q.data = fd.2.data := by
  induction inputs generalizing s with
  | nil =>
      refine ⟨rfl, rfl, hfp, ?_⟩
      intro k q hk
      simp [nvenc_encode_trace] at hk
  | cons x rest ih =>
      obtain ⟨f, d⟩ := x
      have hstep := encode_step_later s f d hfp
      have ihr := ih (nvenc_encode s f d).1 hstep.1
      refine ⟨?_, ?_, ?_, ?_⟩
      · exact ihr.1.trans hstep.2.1
      · exact ihr.2.1.trans hstep.2.2.1
      · exact ihr.2.2.1
      · intro k q hk
        cases k with
        | zero =>
            simp only [nvenc_encode_trace, List.getElem?_cons_zero] at hk
            exact ⟨(f, d), by simp, hstep.2.2.2 q (Option.some.inj hk)⟩
        | succ k =>
            simp only [nvenc_encode_trace, List.getElem?_cons_succ] at hk
            obtain ⟨fd, h1, h2⟩ := ihr.2.2.2 k q hk
            exact ⟨fd, by simpa using h1, h2⟩

/-- C2: over a whole session starting with the first-packet flag set,
the first produced packet (all earlier calls produced none) is
partitioned by `obs_avc_split_headers`: its payload is the slice
remainder, and the session's header and SEI buffers — still equal to
that split at the end of the whole trace — hold the parameter sets
and SEI bytes; every later produced packet is the raw device output
verbatim. -/
theorem first_packet_split_once (inputs : List (Frame × AVPacketOut))
    (s0 : Session) (h0 : s0.first_packet = true) (i : Nat) (p : Packet)
    (hp : (nvenc_encode_trace s0 inputs).2[i]? = some (some p))
    (hprev : ∀ j, j < i →
       (nvenc_encode_trace s0 inputs).2[j]? = some none) :
    ∃ fd : Frame × AVPacketOut, inputs[i]? = some fd ∧
      p.data = (obs_avc_split_headers fd.2.data).1 ∧
      (nvenc_encode_trace s0 inputs).1.header =
        (obs_avc_split_headers fd.2.data).2.1 ∧
      (nvenc_encode_trace s0 inputs).1.sei =
        (obs_avc_split_headers fd.2.data).2.2 ∧
      ∀ (k : Nat) (q : Packet), i < k →
        (nvenc_encode_trace s0 inputs).2[k]? = some (some q) →
        ∃ fd' : Frame × AVPacketOut, inputs[k]? = some fd' ∧
          q.data = fd'.2.data := by
  revert h0 hp hprev
  induction inputs generalizing s0 i p with
  | nil =>
      intro h0 hp hprev
      simp [nvenc_encode_trace] at hp
  | cons x rest ih =>
      intro h0 hp hprev
      obtain ⟨f, d⟩ := x
      cases i with
      | zero =>
          simp only [nvenc_encode_trace, List.getElem?_cons_zero] at hp
          have hp' : (nvenc_encode s0 f d).2.2 = some p :=
            Option.some.inj hp
          have hstep := encode_step_first s0 f d p h0 hp'
          have htr := encode_trace_subsequent rest
            (nvenc_encode s0 f d).1 hstep.2.1
          refine ⟨(f, d), by simp, hstep.1, ?_, ?_, ?_⟩
          · show (nvenc_encode_trace s0 ((f, d) :: rest)).1.header = _
            simp only [nvenc_encode_trace]
            exact htr.1.trans hstep.2.2.1
          · show (nvenc_encode_trace s0 ((f, d) :: rest)).1.sei = _
            simp only [nvenc_encode_trace]
            exact htr.2.1.trans hstep.2.2.2
          · intro k q hik hk
            cases k with
            | zero => omega
            | succ k =>
                simp only [nvenc_encode_trace,
                  List.getElem?_cons_succ] at hk
                obtain ⟨fd', h1, h2⟩ := htr.2.2.2 k q hk
                exact ⟨fd', by simpa using h1, h2⟩
      | succ i =>
          have h00 := hprev 0 (Nat.succ_pos i)
          simp only [nvenc_encode_trace, List.getElem?_cons_zero] at h00
          have hnone : (nvenc_encode s0 f d).2.2 = none :=
            Option.some.inj h00
          have hnp := encode_step_no_packet s0 f d hnone
          have h0' : (nvenc_encode s0 f d).1.first_packet = true :=
            hnp.1.trans h0
          simp only [nvenc_encode_trace, List.getElem?_cons_succ] at hp
          have hprev' : ∀ j, j < i →
              (nvenc_encode_trace (nvenc_encode s0 f d).1 rest).2[j]? =
                some none := by
            intro j hj
            have hh := hprev (j + 1) (Nat.succ_lt_succ hj)
            simpa only [nvenc_encode_trace,
              List.getElem?_cons_succ] using hh
          obtain ⟨fd, h1, h2, h3, h4, h5⟩ :=
            ih (nvenc_encode s0 f d).1 i p h0' hp hprev'
          refine ⟨fd, by simpa using h1, h2, ?_, ?_, ?_⟩
          · show (nvenc_encode_trace s0 ((f, d) :: rest)).1.header = _
            simp only [nvenc_encode_trace]
            exact h3
          · show (nvenc_encode_trace s0 ((f, d) :: rest)).1.sei = _
            simp only [nvenc_encode_trace]
            exact h4
          · intro k q hik hk
            cases k with
            | zero => omega
            | succ k =>
                simp only [nvenc_encode_trace,
                  List.getElem?_cons_succ] at hk
                obtain ⟨fd', hk1, hk2⟩ :=
                  h5 k q (Nat.lt_of_succ_lt_succ hik) hk
                exact ⟨fd', by simpa using hk1, hk2⟩

/-- The verbatim second packet of the C2 witness trace. -/
def packetP : Packet :=
  { pts := 43, dts := 41, data := [0, 0, 0, 1, 65],
    ptype := PacketType.VIDEO, keyframe := false }

/-- Witness for C2 on a concrete two-call trace: the first produced
packet is the split slice payload, the final header/SEI buffers hold
the parameter sets and SEI of the first access unit, and the second
packet passes the raw device output through verbatim. -/
theorem first_packet_split_once_witness :
    freshSession.first_packet = true ∧
    (nvenc_encode_trace freshSession
       [(frame0, devIDR), (frame0, devP)]).2[0]? = some (some packetIDR) ∧
    packetIDR.data = (obs_avc_split_headers devIDR.data).1 ∧
    (nvenc_encode_trace freshSession
       [(frame0, devIDR), (frame0, devP)]).1.header =
      (obs_avc_split_headers devIDR.data).2.1 ∧
    (nvenc_encode_trace freshSession
       [(frame0, devIDR), (frame0, devP)]).1.sei =
      (obs_avc_split_headers devIDR.data).2.2 ∧
    packetP.data = devP.data := by
  have h1 : (nvenc_encode_trace freshSession
      [(frame0, devIDR), (frame0, devP)]).2[0]? =
      some (some packetIDR) := by rfl
  obtain ⟨fd, hfd, hdata, hheader, hsei, hsub⟩ :=
    first_packet_split_once [(frame0, devIDR), (frame0, devP)]
      freshSession rfl 0 packetIDR h1
      (fun j hj => absurd hj (Nat.not_lt_zero j))
  have hfd' : fd = (frame0, devIDR) := by
    have hh : some ((frame0, devIDR) : Frame × AVPacketOut) = some fd := hfd
    exact (Option.some.inj hh).symm
  subst hfd'
  exact ⟨rfl, h1, hdata, hheader, hsei, rfl⟩

end Nvenc
